import Mathlib

set_option maxRecDepth 8000

/-!
A shallow embedding of the advisory orchestration and inventory-diff engine of
the terraform-provider-incapsula repository (incapsula/provider.go), together
with theorems checking the natural-language specification of that engine
against the embedded code.

External collaborators (the reasoning-agent service reached through
`queryAgent` / `answerWithTools`, the operating system's file system, and the
Go standard library's `filepath.Glob`) are modelled as explicit environment
values passed to the embedded functions; everything else is translated
directly from the source.
-/

/-! ## Data model -/

/-- `TfResource` from provider.go: a declared resource record `{Type, Id}`. -/
structure TfResource where
  type : String
  id : String
deriving DecidableEq, Repr

/-- A decoded JSON value, as held in a Go `map[string]interface{}` produced by
`encoding/json`.  Only the string/non-string distinction matters to the code
under study; numeric fidelity is irrelevant and modelled as `Int`. -/
inductive JVal where
  | str (s : String)
  | num (n : Int)
  | bool (b : Bool)
  | null
  | arr (elems : List JVal)
  | obj (fields : List (String × JVal))

/-- One instance of a state resource: its decoded `attributes` object.
Go's `map[string]interface{}` is modelled as an association list with
first-match lookup (JSON decoding produces unique keys). -/
structure StateInstance where
  attributes : List (String × JVal)

/-- One entry of the decoded state's `resources` array. -/
structure StateResource where
  type : String
  instances : List StateInstance

/-- The decoded shape of a terraform.tfstate document, exactly the anonymous
struct declared inside `getAllResourcesTypeAndId` / `getAllResourcesFromState`. -/
structure StateDoc where
  resources : List StateResource

/-- The outcome of opening and JSON-decoding a state file:
`os.Open` failure, `decoder.Decode` failure, or a decoded document. -/
inductive StateRead where
  | openError
  | decodeError
  | ok (doc : StateDoc)

/-! ## Inventory collector: getAllResourcesTypeAndId (provider.go 797-837) -/

/-- Embeds `getAllResourcesTypeAndId`.  The two error branches return the
still-empty `resources` slice after logging; the success branch runs the two
nested `for` loops, appending a record whenever the instance's attributes
contain a key `"id"` (`ok`) whose value is a string (`isStr`). -/
def getAllResourcesTypeAndId (r : StateRead) : List TfResource :=
  match r with
  | .openError => []
  | .decodeError => []
  | .ok state =>
    state.resources.foldl (fun resources resource =>
      resource.instances.foldl (fun resources inst =>
        match inst.attributes.lookup "id" with
        | some idv =>
          match idv with
          | JVal.str idStr => resources ++ [{ type := resource.type, id := idStr }]
          | _ => resources
        | none => resources) resources) []

/-- Modelled from the spec: `collectFromState` "returns exactly the instances
whose `attributes.id` is a string; non-string or missing `id` instances are
excluded" (spec 4.1 and 8), one `{type, id}` record per kept instance. -/
def collectFromState (doc : StateDoc) : List TfResource :=
  doc.resources.flatMap (fun resource =>
    resource.instances.filterMap (fun inst =>
      match inst.attributes.lookup "id" with
      | some (JVal.str s) => some { type := resource.type, id := s }
      | _ => none))

theorem instancesFoldlEq (rtype : String) :
    ∀ (l : List StateInstance) (acc : List TfResource),
      l.foldl (fun resources inst =>
        match inst.attributes.lookup "id" with
        | some idv =>
          match idv with
          | JVal.str idStr => resources ++ [{ type := rtype, id := idStr }]
          | _ => resources
        | none => resources) acc
      = acc ++ l.filterMap (fun inst =>
          match inst.attributes.lookup "id" with
          | some (JVal.str s) => some { type := rtype, id := s }
          | _ => none)
  | [], acc => by simp
  | inst :: l, acc => by
    rw [List.foldl_cons, List.filterMap_cons, instancesFoldlEq rtype l]
    cases h : inst.attributes.lookup "id" with
    | none => simp [h]
    | some idv => cases idv <;> simp [h]

theorem resourcesFoldlEq :
    ∀ (l : List StateResource) (acc : List TfResource),
      l.foldl (fun resources resource =>
        resource.instances.foldl (fun resources inst =>
          match inst.attributes.lookup "id" with
          | some idv =>
            match idv with
            | JVal.str idStr => resources ++ [{ type := resource.type, id := idStr }]
            | _ => resources
          | none => resources) resources) acc
      = acc ++ l.flatMap (fun resource =>
          resource.instances.filterMap (fun inst =>
            match inst.attributes.lookup "id" with
            | some (JVal.str s) => some { type := resource.type, id := s }
            | _ => none))
  | [], acc => by simp
  | resource :: l, acc => by
    rw [List.foldl_cons, resourcesFoldlEq l, instancesFoldlEq, List.flatMap_cons,
      List.append_assoc]

/-- Claim C3: for every valid (decoded) state snapshot, `getAllResourcesTypeAndId`
returns exactly one `{type, id}` record per instance whose attributes contain a
string-typed `"id"` key, in order; instances with a missing or non-string `"id"`
are excluded and no other records are produced. -/
theorem c3_collect_from_state (doc : StateDoc) :
    getAllResourcesTypeAndId (.ok doc) = collectFromState doc := by
  show _ = collectFromState doc
  rw [getAllResourcesTypeAndId, resourcesFoldlEq, collectFromState, List.nil_append]

/-! ## Report emitter: createResponse (provider.go 225-234) -/

/-- `diag.Severity` of the terraform-plugin-sdk, as used here. -/
inductive DiagSeverity where
  | error
  | warning
deriving DecidableEq, Repr

/-- A `diag.Diagnostic` of the terraform-plugin-sdk, restricted to the fields
the provider sets. -/
structure Diagnostic where
  severity : DiagSeverity
  summary : String
  detail : String
deriving DecidableEq, Repr

/-- The provider configuration values the engine reads from `d.Get`. -/
structure ProviderData where
  apiId : String
  apiKey : String
  executionDir : String

/-- Embeds `createResponse`: appends one warning diagnostic carrying the
aggregated answer (the `d` parameter is unused by the body; `print` is a
side effect outside the returned value). -/
def createResponse (_d : ProviderData) (answer : String) : List Diagnostic :=
  [{ severity := .warning, summary := "Best Practice Suggestion", detail := answer }]

/-- Claim C9: report emission is total and never raises: for every aggregated
text (empty, large, special characters included), `createResponse` returns
exactly one diagnostic payload with warning severity whose detail is the given
text. -/
theorem c9_emission_total (d : ProviderData) (answer : String) :
    createResponse d answer
      = [{ severity := .warning, summary := "Best Practice Suggestion", detail := answer }] :=
  rfl

/-! ## State-file path construction (provider.go 200-217) -/

/-- The state-snapshot path read by `getLLMSuggestions`: the literal Go
expression `dir + "terraform.tfstate"` (plain string concatenation). -/
def stateFilePath (dir : String) : String := dir ++ "terraform.tfstate"

theorem strDataAppend : ∀ (a b : String), (a ++ b).data = a.data ++ b.data
  | ⟨_⟩, ⟨_⟩ => rfl

theorem strAppendAssoc : ∀ (a b c : String), a ++ b ++ c = a ++ (b ++ c)
  | ⟨a⟩, ⟨b⟩, ⟨c⟩ => congrArg String.mk (List.append_assoc a b c)

/-- Claim C10 (implicit): the state-snapshot path is formed by plain
concatenation of `execution_dir` with the literal `"terraform.tfstate"`, with
no path separator inserted; hence for every non-empty `execution_dir` not
ending in a path separator the path read is not a file inside that directory
(it is not of the form `dir ++ "/" ++ name`), and for the empty
`execution_dir` the path is the bare relative name `"terraform.tfstate"`,
resolved against the process working directory. -/
theorem c10_state_path_concat (dir : String) :
    stateFilePath dir = dir ++ "terraform.tfstate"
    ∧ (dir ≠ "" → dir.data.getLast? ≠ some (Char.ofNat 47) →
        ∀ name : String, stateFilePath dir ≠ dir ++ "/" ++ name)
    ∧ stateFilePath "" = "terraform.tfstate" := by
  refine ⟨rfl, ?_, rfl⟩
  intro _ _ name heq
  have hdata : dir.data ++ ("terraform.tfstate" : String).data
      = dir.data ++ (("/" : String).data ++ name.data) := by
    have h0 := congrArg String.data heq
    rw [stateFilePath, strDataAppend, strDataAppend, strDataAppend,
      List.append_assoc] at h0
    exact h0
  have htail := List.append_cancel_left hdata
  have hhead := congrArg List.head? htail
  simp at hhead

/-- Witness for C10 at a concrete directory: `"/work"` does not end in a
separator (its last character is not a slash), and the path actually read is
the sibling entry
`"/workterraform.tfstate"`, not `"/work/terraform.tfstate"`. -/
theorem c10_state_path_concat_witness :
    stateFilePath "/work" ≠ "/work" ++ "/" ++ "terraform.tfstate" :=
  (c10_state_path_concat "/work").2.1 (by decide) (by decide) "terraform.tfstate"

/-! ## Raw-configuration collector: getAllResourcesFromTfFiles (provider.go 876-890)

`filepath.Glob` is an external collaborator.  Its documented contract: it
returns the sorted list of files matching the pattern, and "the only possible
returned error is ErrBadPattern, when pattern is malformed"; `Glob` validates
the whole pattern up front via `path.Match`.  The validity scan below follows
`path.Match`'s error detection: a trailing unescaped backslash, or a
malformed character class (`getEsc` rejects an exhausted pattern, a range
starting with `-` or `]`, an escape at the end, and a class left unterminated
after a range). -/

def backslashChar : Char := Char.ofNat 92

def lbrackChar : Char := Char.ofNat 91

def rbrackChar : Char := Char.ofNat 93

def caretChar : Char := Char.ofNat 94

/-- `getEsc` of Go's path.Match: consume one (possibly escaped)
character-range endpoint; `none` signals `ErrBadPattern`.  Go also rejects
the case where nothing remains after the endpoint (the class can no longer
be closed). -/
def getEsc (cs : List Char) : Option (List Char) :=
  match cs with
  | [] => none
  | c :: rest =>
    if c = '-' ∨ c = rbrackChar then none
    else if c = backslashChar then
      match rest with
      | [] => none
      | _ :: rest2 => if rest2.isEmpty then none else some rest2
    else if rest.isEmpty then none else some rest

/-- The character-class loop of Go's path.Match `matchChunk`: read ranges
(`lo` or `lo-hi`) until a closing `]` (which only closes after at least one
range); `none` signals `ErrBadPattern`.  `fuel` bounds recursion; it is
always called with fuel exceeding the list length, and every step consumes
at least one character. -/
def scanRanges : Nat → List Char → Nat → Option (List Char)
  | 0, _, _ => none
  | fuel + 1, cs, nrange =>
    match cs with
    | [] => none
    | c :: rest =>
      if c = rbrackChar ∧ 0 < nrange then some rest
      else
        match getEsc (c :: rest) with
        | none => none
        | some r1 =>
          match r1 with
          | c2 :: r2 =>
            if c2 = '-' then
              match getEsc r2 with
              | none => none
              | some r3 => scanRanges fuel r3 (nrange + 1)
            else scanRanges fuel r1 (nrange + 1)
          | [] => none

/-- Strip the optional leading `^` of a character class. -/
def classBody (cs : List Char) : List Char :=
  match cs with
  | c :: rest => if c = caretChar then rest else c :: rest
  | [] => []

/-- Whole-pattern syntax scan of Go's path.Match, `true` iff the pattern is
malformed (`ErrBadPattern`).  `*` and `?` never contribute errors. -/
def patBadAux : Nat → List Char → Bool
  | 0, _ => true
  | _ + 1, [] => false
  | fuel + 1, c :: cs =>
    if c = backslashChar then
      match cs with
      | [] => true
      | _ :: cs2 => patBadAux fuel cs2
    else if c = lbrackChar then
      match scanRanges (cs.length + 1) (classBody cs) 0 with
      | none => true
      | some rest => patBadAux fuel rest
    else patBadAux fuel cs

def patBad (pattern : String) : Bool :=
  patBadAux (pattern.data.length + 1) pattern.data

/-- Models Go `filepath.Join(dir, elem)` as used here: an empty first
component is dropped, otherwise the components are joined with `/`.  (The
final `Clean` only rewrites separator/dot runs and cannot create or repair a
malformed character class; it is omitted.) -/
def goJoin (dir elem : String) : String :=
  if dir = "" then elem else dir ++ "/" ++ elem

/-- The file-system facts `getAllResourcesFromTfFiles` depends on: the match
list `filepath.Glob` would report for a pattern, and per-file
`ioutil.ReadFile` results (`none` = unreadable). -/
structure FileSys where
  globMatches : String → List String
  read : String → Option String

/-- Models `filepath.Glob` by its documented contract: `ErrBadPattern`
exactly when the pattern is malformed, otherwise the match list. -/
def filepathGlob (fs : FileSys) (pattern : String) : Except Unit (List String) :=
  if patBad pattern then .error () else .ok (fs.globMatches pattern)

/-- Embeds `getAllResourcesFromTfFiles`: glob `dir/*.tf`; on glob error
return `("", err)`; otherwise concatenate each readable file's content
followed by a newline, skipping (`continue`) unreadable files. -/
def getAllResourcesFromTfFiles (fs : FileSys) (dir : String) : String × Option Unit :=
  match filepathGlob fs (goJoin dir "*.tf") with
  | .error e => ("", some e)
  | .ok files =>
    (files.foldl (fun content file =>
      match fs.read file with
      | some src => content ++ src ++ "\n"
      | none => content) "", none)

theorem strFoldlAppendShift : ∀ (l : List String) (a : String),
    l.foldl (· ++ ·) a = a ++ l.foldl (· ++ ·) ""
  | [], a => by simp [String.append_empty]
  | s :: l, a => by
    rw [List.foldl_cons, List.foldl_cons, strFoldlAppendShift l (a ++ s),
      strFoldlAppendShift l ("" ++ s), String.empty_append, strAppendAssoc]

theorem strJoinCons (s : String) (l : List String) :
    String.join (s :: l) = s ++ String.join l := by
  simp only [String.join, List.foldl_cons, String.empty_append]
  exact strFoldlAppendShift l s

theorem tfFoldlConcat (read : String → Option String) :
    ∀ (files : List String) (acc : String),
      files.foldl (fun content file =>
        match read file with
        | some src => content ++ src ++ "\n"
        | none => content) acc
      = acc ++ String.join (files.filterMap (fun file => (read file).map (· ++ "\n")))
  | [], acc => by
    simp only [List.foldl_nil, List.filterMap_nil]
    rw [show String.join [] = "" from rfl, String.append_empty]
  | file :: files, acc => by
    rw [List.foldl_cons, List.filterMap_cons]
    cases h : read file with
    | none =>
      exact tfFoldlConcat read files acc
    | some src =>
      show List.foldl _ (acc ++ src ++ "\n") files
        = acc ++ String.join ((src ++ "\n") :: _)
      rw [tfFoldlConcat read files (acc ++ src ++ "\n"), strJoinCons]
      simp only [strAppendAssoc]

theorem tfFilesOkEq (fs : FileSys) (dir : String)
    (hpat : patBad (goJoin dir "*.tf") = false) :
    getAllResourcesFromTfFiles fs dir
      = (String.join ((fs.globMatches (goJoin dir "*.tf")).filterMap
          (fun file => (fs.read file).map (· ++ "\n"))), none) := by
  rw [getAllResourcesFromTfFiles, filepathGlob, hpat]
  simp only [Bool.false_eq_true, if_false]
  rw [tfFoldlConcat, String.empty_append]

/-- Claim C6: whenever the glob pattern `dir/*.tf` is well-formed (file
discovery succeeds), `getAllResourcesFromTfFiles` returns, with no error, the
concatenation of the contents of the discovered `.tf` files in discovery
order, each file's content followed by a newline, omitting unreadable files.
Determinism over an unchanged directory listing is immediate: the function is
a pure function of the listing and the file contents. -/
theorem c6_raw_configuration (fs : FileSys) (dir : String)
    (hpat : patBad (goJoin dir "*.tf") = false) :
    getAllResourcesFromTfFiles fs dir
      = (String.join ((fs.globMatches (goJoin dir "*.tf")).filterMap
          (fun file => (fs.read file).map (· ++ "\n"))), none) :=
  tfFilesOkEq fs dir hpat

/-- A small file system for the C6 witness: three discovered files, the
middle one unreadable. -/
def fsC6 : FileSys where
  globMatches := fun _ => ["work/a.tf", "work/b.tf", "work/c.tf"]
  read := fun file =>
    if file = "work/a.tf" then some "resource A"
    else if file = "work/c.tf" then some "resource C"
    else none

/-- Witness for C6 at a concrete input: the pattern `work/*.tf` is
well-formed, and the unreadable middle file is skipped while the readable
files are concatenated each with a trailing newline. -/
theorem c6_raw_configuration_witness :
    patBad (goJoin "work" "*.tf") = false
    ∧ getAllResourcesFromTfFiles fsC6 "work" = ("resource A\nresource C\n", none) :=
  ⟨by decide, (c6_raw_configuration fsC6 "work" (by decide)).trans (by decide)⟩

/-- A file system with no matches and no readable files, for the C4
counterexample (its content is irrelevant: the error occurs before it is
consulted). -/
def fsBad : FileSys where
  globMatches := fun _ => []
  read := fun _ => none

/-- Claim C4 counterexample: `getAllResourcesFromTfFiles` does return an
error to its caller for the directory input `"["`: the glob pattern
`"[/*.tf"` is malformed (unterminated character class), `filepath.Glob`
reports `ErrBadPattern`, and the function returns `("", err)` with a non-nil
error. -/
theorem c4_collectors_counterexample :
    (getAllResourcesFromTfFiles fsBad "[").snd = some () := by decide

/-- Claim C4 amended: the state collectors never return an error to the
caller — an unopenable state file and a JSON-decode failure each yield an
empty inventory — and raw-configuration collection never errors and skips
unreadable files provided the glob pattern `dir/*.tf` is well-formed; for a
directory that makes the pattern malformed (e.g. one containing an
unterminated `[` class) it returns an empty result together with a non-nil
`ErrBadPattern` error. -/
theorem c4_collectors_error_contract (fs : FileSys) (dir : String) :
    getAllResourcesTypeAndId .openError = []
    ∧ getAllResourcesTypeAndId .decodeError = []
    ∧ (patBad (goJoin dir "*.tf") = true →
        getAllResourcesFromTfFiles fs dir = ("", some ()))
    ∧ (patBad (goJoin dir "*.tf") = false →
        (getAllResourcesFromTfFiles fs dir).snd = none) := by
  refine ⟨rfl, rfl, ?_, ?_⟩
  · intro hpat
    rw [getAllResourcesFromTfFiles, filepathGlob, hpat]
    simp
  · intro hpat
    rw [tfFilesOkEq fs dir hpat]

/-- Witness for C4 at concrete inputs: the malformed-pattern branch for the
directory `"["` and the no-error branch for the directory `"work"`. -/
theorem c4_collectors_error_contract_witness :
    getAllResourcesFromTfFiles fsBad "[" = ("", some ())
    ∧ (getAllResourcesFromTfFiles fsBad "work").snd = none :=
  ⟨(c4_collectors_error_contract fsBad "[").2.2.1 (by decide),
   (c4_collectors_error_contract fsBad "work").2.2.2 (by decide)⟩

/-! ## Reasoning-agent client (external collaborator)

`queryAgent` (plain prompt → text) and `answerWithTools` (tool-augmented
prompt plus the api credential pair → text) live outside provider.go; both
return a `(text, err)` pair and every call site in provider.go discards the
error (`answer, _ := ...`). -/

structure AgentEnv where
  queryAgent : String → String × Option Unit
  answerWithTools : String → String → String → String × Option Unit

/-! ## Prompt texts

The following string definitions transcribe, verbatim, the Go string
literals of provider.go (braces as `\x7b`/`\x7d`, apostrophes as `\x27`);
long literals are split into concatenated line chunks.  A `%s`-free prefix
of a `fmt.Sprintf` template is given as `...Text`, and the corresponding
question builder appends the formatted arguments in the template's order. -/

def generalTFBestPracticesText : String :=
  "You are an expert Terraform engineer and cloud architect.\n" ++
  "Your task is to analyze the Terraform code I provide and suggest improvements strictly following Terraform best practice" ++
  "s specified in the following link: https://www.terraform-best-practices.com/\n" ++
  "\n" ++
  "When I give you Terraform files, follow all instructions below:\n" ++
  "\n" ++
  "What You Must Do\n" ++
  "1. Identify Issues\n" ++
  "2. Provide Exact Replacement Snippets\n" ++
  "\n" ++
  "Focus on the following areas, arranged by priority:\n" ++
  "\n" ++
  "\t1. **Security Best Practices**  \n" ++
  "\t   - Ensure secrets values like passwords are not hard-coded\n" ++
  "\t   - Verify IAM policies follow the principle of least privilege, avoiding overly permissive roles.  \n" ++
  "\t   - Check for proper encryption of sensitive data both in transit and at rest.  \n" ++
  "\t\n" ++
  "\t2. **Provider and Resource Configuration**  \n" ++
  "\t   - Identify deprecated arguments, or attributes and suggest replacements based on the latest provider documentation. " ++
  " \n" ++
  "\t   - Ensure provider configurations are correct and up-to-date, including version pinning to avoid unexpected behavior." ++
  "  \n" ++
  "\t\n" ++
  "\t3. **Code Modularity and Reusability**  \n" ++
  "\t   - Evaluate the use of modules to ensure proper structure and reusability of Terraform code.  \n" ++
  "\t   - Identify opportunities to refactor repetitive code into reusable modules.  \n" ++
  "\t\n" ++
  "\t4. **Variable and Input Validation**  \n" ++
  "\t   - Replace hard-coded values with variables to improve flexibility and maintainability.  \n" ++
  "\t   - Ensure variables have proper types, validation rules, and default values where applicable.  \n" ++
  "\t\n" ++
  "\t5. **Resource Naming and Tagging**  \n" ++
  "\t   - Check for consistent and meaningful resource naming conventions and not the resource parameters.\n" ++
  "\t   - Ensure resources are tagged with metadata (e.g., environment, owner, purpose) to improve management and cost track" ++
  "ing.  \n" ++
  "\t\n" ++
  "\t6. **Cost Optimization and Efficiency**  \n" ++
  "\t   - Identify inefficient or costly configurations and suggest improvements to reduce resource usage and expenses.  \n" ++
  "\t\n" ++
  "\t7. **General Best Practices**  \n" ++
  "\t   - Ensure the code adheres to Terraform and cloud provider best practices, avoiding anti-patterns or risky configurat" ++
  "ions.  \n" ++
  "\t   - Verify that all required attributes are present and correctly configured.  \n" ++
  "\n" ++
  "For each issue identified, provide:  \n" ++
  "- A clear description of the problem.  \n" ++
  "- The original Terraform snippet.  \n" ++
  "- An improved Terraform snippet (ready to paste).  \n" ++
  "- A brief explanation of why the improvement is necessary and how it aligns with best practices.\n" ++
  "\n" ++
  "Important Instructions:\n" ++
  "- Keep context and variable names unless renaming is part of the improvement, and don\x27t suggest names that already exist" ++
  "s\x27\n" ++
  "- Combine multiple improvements into one clean replacement snippet.\n" ++
  "- Ensure the replacement is syntactically correct.\n" ++
  "- Never output partial fragments—always provide complete blocks.\n" ++
  "\n" ++
  "3. Output Format (Must Follow Exactly)\n" ++
  "\n" ++
  "For every issue:\n" ++
  "\n" ++
  "Issue <number> — <short title>\n" ++
  "\n" ++
  "Original snippet:\n" ++
  "\n" ++
  "<original>\n" ++
  "\n" ++
  "Improved snippet:\n" ++
  "\n" ++
  "<improved>\n" ++
  "\n" ++
  "Explanation:\n" ++
  "<clear explanation>\n" ++
  "\n" ++
  "After analyzing all issues:\n" ++
  "\n" ++
  "Summary of Improvements\n" ++
  "\n" ++
  "- Bullet points summarizing key changes.\n" ++
  "\n" ++
  "Important Rules\n" ++
  "\n" ++
  "- Do not invent architecture not implied by the code.\n" ++
  "- Only modify what is necessary.\n" ++
  "- Keep improvements realistic and aligned with actual Terraform usage.\n" ++
  "- If something looks dangerous or costly, call it out clearly.\n" ++
  "- If the provided Terraform is already optimal, say so and explain why.\n" ++
  "\n" ++
  "The current Terraform resources are as follows: "

def impervaReplaceText : String :=
  "\n" ++
  "You are an expert Terraform engineer specializing in provider-level correctness.\n" ++
  "Your task is to analyze Terraform files I provide and compare them against the current official provider documentation.\n" ++
  "\n" ++
  "When I give you Terraform files, follow all instructions below:\n" ++
  "\n" ++
  "What You Must Do\n" ++
  "1. Identify Issues\n" ++
  "2. Provide Exact Replacement Snippets\n" ++
  "\n" ++
  "Focus on the following areas, arranged by priority:\n" ++
  "\n" ++
  "Deprecated resources\n" ++
  "\n" ++
  "Deprecated arguments or attributes\n" ++
  "\n" ++
  "Removed or breaking-change arguments\n" ++
  "\n" ++
  "Misconfigurations that differ from current provider requirements\n" ++
  "\n" ++
  "Arguments that should be nested or relocated (based on provider updates)\n" ++
  "\n" ++
  "Required attributes that are missing\n" ++
  "\n" ++
  "Any incorrect or outdated configuration patterns\n" ++
  "\n" ++
  "For each issue identified, provide:  \n" ++
  "- A clear description of the problem.  \n" ++
  "- The original Terraform snippet.  \n" ++
  "- An improved Terraform snippet (ready to paste).  \n" ++
  "- A brief explanation of why the improvement is necessary and how it aligns with best practices.\n" ++
  "\n" ++
  "Important Instructions:\n" ++
  "- Keep context and variable names unless renaming is part of the improvement, and don\x27t suggest names that already exist" ++
  "s\x27\n" ++
  "- Combine multiple improvements into one clean replacement snippet.\n" ++
  "- Ensure the replacement is syntactically correct.\n" ++
  "- Never output partial fragments—always provide complete blocks.\n" ++
  "\n" ++
  "3. Output Format (Must Follow Exactly)\n" ++
  "\n" ++
  "For every issue:\n" ++
  "\n" ++
  "Issue <number> — <short title>\n" ++
  "\n" ++
  "Original snippet:\n" ++
  "\n" ++
  "<original>\n" ++
  "\n" ++
  "Improved snippet:\n" ++
  "\n" ++
  "<improved>\n" ++
  "\n" ++
  "Explanation:\n" ++
  "<clear explanation>\n" ++
  "\n" ++
  "After analyzing all issues:\n" ++
  "\n" ++
  "Summary of Improvements\n" ++
  "\n" ++
  "- Bullet points summarizing key changes.\n" ++
  "\n" ++
  "Important Rules\n" ++
  "\n" ++
  "- Do not invent architecture not implied by the code.\n" ++
  "- Only modify what is necessary.\n" ++
  "- Keep improvements realistic and aligned with actual Terraform usage.\n" ++
  "- If something looks dangerous or costly, call it out clearly.\n" ++
  "- If the provided Terraform is already optimal, say so and explain why.\n" ++
  "\n" ++
  "The current Terraform resources are as follows: "

def newFeaturesText1 : String :=
  "You are an infrastructure-as-code assistant that helps upgrade a customer\x27s Terraform configuration to use new features " ++
  "of a specific Terraform provider.\n" ++
  "\n" ++
  "You will receive three kinds of inputs:\n" ++
  "1) A list of NEW FEATURES for the provider (high level description, changelog, release notes, etc.).\n" ++
  "2) The PROVIDER DOCUMENTATION (resources, data sources, arguments, example configs).\n" ++
  "3) The CUSTOMER TERRAFORM FILE(S) (current .tf configuration).\n" ++
  "\n" ++
  "Your goals:\n" ++
  "- Understand what each new feature does and which provider resources / data sources / arguments are related to it.\n" ++
  "- Inspect the customer’s existing Terraform configuration.\n" ++
  "- Identify which new features are NOT yet used in the customer’s config.\n" ++
  "- Propose concrete Terraform changes (new resources, data sources, arguments, or blocks) that would enable those missing" ++
  " features.\n" ++
  "\n" ++
  "====================\n" ++
  "WORKFLOW\n" ++
  "====================\n" ++
  "\n" ++
  "1. Parse the new features\n" ++
  "- For each new feature:\n" ++
  "  - Give it a short identifier (e.g., \"Feature 1 – Enhanced logging\").\n" ++
  "  - Summarize what it does in 1–2 sentences.\n" ++
  "  - Map it to specific provider documentation elements:\n" ++
  "    - Resource types\n" ++
  "    - Data sources\n" ++
  "    - Arguments / nested blocks\n" ++
  "    - Any version constraints\n" ++
  "\n" ++
  "2. Map features to provider documentation\n" ++
  "- For each feature:\n" ++
  "  - Find the most relevant resource(s) and/or data source(s).\n" ++
  "  - Note the required and important optional arguments.\n" ++
  "  - Capture any limitations or prerequisites from the docs.\n" ++
  "- Do not invent arguments or resources that are not present in the docs.\n" ++
  "  - If something is unclear or ambiguous, explicitly say so.\n" ++
  "\n" ++
  "3. Analyze the customer Terraform files\n" ++
  "- Build a mental model of the configuration:\n" ++
  "  - Which provider is used and what version constraints exist.\n" ++
  "  - Which resources and data sources are already present.\n" ++
  "  - Common naming patterns, tags, variable naming, modules, and conventions.\n" ++
  "- For each new feature:\n" ++
  "  - Check if it is already used in any resource, data source, or argument.\n" ++
  "  - If it is used, briefly note where and how.\n" ++
  "  - If it is NOT used, mark the feature as \"missing\".\n" ++
  "\n" ++
  "4. Suggest additions/changes for missing features\n" ++
  "For every feature marked as “missing”:\n" ++
  "- Propose one or more Terraform changes that would enable the feature:\n" ++
  "  - New resource blocks, data sources, or nested blocks.\n" ++
  "  - New arguments on existing resources (if clearly safe and backwards-compatible).\n" ++
  "- Follow these rules:\n" ++
  "  - Preserve the customer’s style:\n" ++
  "    - Naming conventions for resources and variables.\n" ++
  "    - Tagging conventions.\n" ++
  "    - Module structure and layout.\n" ++
  "  - Minimize disruptions:\n" ++
  "    - Prefer adding new blocks or arguments over refactoring everything.\n" ++
  "    - Avoid destructive or breaking changes unless clearly required and explicitly flagged as such.\n" ++
  "  - Be explicit about any assumptions you make about the environment.\n" ++
  "\n" ++
  "5. Validate and annotate your suggestions\n" ++
  "- For each suggested change:\n" ++
  "  - Reference the relevant section(s) of the provider docs (resource name, argument names, behavior).\n" ++
  "  - Explain briefly how this change activates the new feature.\n" ++
  "  - Note any potential side effects, risks, or prerequisites (e.g., \"requires provider version >= X.Y\").\n" ++
  "\n" ++
  "====================\n" ++
  "OUTPUT FORMAT\n" ++
  "====================\n" ++
  "\n" ++
  "Respond using this structure:\n" ++
  "\n" ++
  "1) Feature Coverage Summary\n" ++
  "   - For each feature:\n" ++
  "     - Feature ID:\n" ++
  "     - Used in current config?: (Yes/No/Partial)\n" ++
  "     - Short reasoning (1–2 sentences).\n" ++
  "\n" ++
  "2) Proposed Terraform Changes\n" ++
  "   For each feature with \"No\" or \"Partial\" usage:\n" ++
  "   - Feature ID:\n" ++
  "   - Rationale:\n" ++
  "   - Suggested change type: (New resource / New data source / New arguments / Other)\n" ++
  "   - Terraform snippet:\n" ++
  "     \"hcl\n" ++
  "\t# Your suggested HCL code here\n" ++
  "\t\"\n" ++
  "   - Notes:\n" ++
  "     - Relevant provider resources/data sources/arguments:\n" ++
  "     - Version requirements:\n" ++
  "     - Risks or side effects:\n" ++
  "     - Assumptions:\n" ++
  "\n" ++
  "3) Optional Refactoring / Improvements (if applicable)\n" ++
  "   - Only include if there are clearly beneficial and low-risk refactors.\n" ++
  "   - List them as bullet points, each with:\n" ++
  "     - What to change.\n" ++
  "     - Why it’s beneficial.\n" ++
  "     - Whether it is backwards-compatible.\n" ++
  "\n" ++
  "====================\n" ++
  "STYLE & CONSTRAINTS\n" ++
  "====================\n" ++
  "\n" ++
  "- Use valid HCL syntax in all snippets.\n" ++
  "- Do NOT invent undocumented arguments, blocks, or resources.\n" ++
  "- If you are unsure about something due to ambiguous docs or missing context, clearly say \"UNCERTAIN\" and explain why.\n" ++
  "- Keep explanations concise but clear.\n" ++
  "- Do not change or remove existing resources unless it is clearly necessary for the new feature; if you propose such a c" ++
  "hange, highlight it as potentially breaking.\n" ++
  "\n" ++
  "The Imperva provider docs are: "

def newFeaturesText2 : String :=
  "\n" ++
  "\n" ++
  "The new features are: "

def newFeaturesText3 : String :=
  "\n" ++
  "\n" ++
  "The current Terraform code is as follows: "

def newFeaturesText4 : String :=
  "\n" ++
  "\n"

def htmlText : String :=
  "\n" ++
  "You are a system that takes a final answer to the user question and turns that answer into a single, well-structured, vi" ++
  "sually organized HTML file.\n" ++
  "\n" ++
  "Overall behavior\n" ++
  "\n" ++
  "Transform that explanation into a self-contained HTML document that:\n" ++
  "\n" ++
  "Uses semantic structure (sections, headings, lists).\n" ++
  "\n" ++
  "Uses a simple but attractive layout (cards, columns, timelines, etc.).\n" ++
  "\n" ++
  "Includes inline CSS so it can be saved directly as index.html and opened in a browser.\n" ++
  "\n" ++
  "Output only the final HTML. Do not include any explanations, comments, or markdown.\n" ++
  "\n" ++
  "Content requirements\n" ++
  "\n" ++
  "Identify:\n" ++
  "\n" ++
  "Main idea / overview\n" ++
  "\n" ++
  "3–7 key points or components\n" ++
  "\n" ++
  "Any process, timeline, or hierarchy that can be visualized\n" ++
  "\n" ++
  "Summarize in clear, concise text (no huge paragraphs).\n" ++
  "\n" ++
  "All code snippets MUST be included in the recomendations.\n" ++
  "\n" ++
  "include BOTH original snippets and improved snippets. (if exists)\n" ++
  "\n" ++
  "HTML requirements:\n" ++
  "\n" ++
  "Produce a complete HTML5 document:\n" ++
  "\n" ++
  "Use this structure (adapt as needed):\n" ++
  "\n" ++
  "<html>, <head>, <body> with:\n" ++
  "\n" ++
  "<meta charset=\"UTF-8\">\n" ++
  "\n" ++
  "<title>: short title derived from the topic\n" ++
  "\n" ++
  "<style>: all CSS inline in the head (no external files)\n" ++
  "\n" ++
  "In <body>:\n" ++
  "\n" ++
  "A top header with:\n" ++
  "\n" ++
  "Main title\n" ++
  "\n" ++
  "Short subtitle/description\n" ++
  "\n" ++
  "A main content container with:\n" ++
  "\n" ++
  "Overview section\n" ++
  "\n" ++
  "Cards or columns for key points\n" ++
  "\n" ++
  "At least one “graphic” layout:\n" ++
  "\n" ++
  "E.g. a timeline, process flow, comparison table, or step boxes\n" ++
  "\n" ++
  "These can be built using HTML + CSS (no JS required).\n" ++
  "\n" ++
  "Visual style guidelines:\n" ++
  "\n" ++
  "Use a clean, modern layout with:\n" ++
  "\n" ++
  "A max-width centered container\n" ++
  "\n" ++
  "Some padding and spacing between sections\n" ++
  "\n" ++
  "Rounded corners and subtle box shadows for cards\n" ++
  "\n" ++
  "Use CSS Flexbox or CSS Grid for multi-column layouts where helpful.\n" ++
  "\n" ++
  "Use readable fonts (e.g. system fonts via font-family: system-ui, -apple-system, BlinkMacSystemFont, \"Segoe UI\", sans-se" ++
  "rif;).\n" ++
  "\n" ++
  "Use a light background and slightly darker cards, with clear contrast between headings and body text.\n" ++
  "\n" ++
  "Use consistent heading sizes (e.g., h1 main title, h2 section titles, h3 card titles).\n" ++
  "\n" ++
  "Use icons or emojis where helpful (e.g. ✅, ⚙️, 📌, ⏱️) but not excessively.\n" ++
  "\n" ++
  "Accessibility:\n" ++
  "\n" ++
  "Ensure good color contrast.\n" ++
  "\n" ++
  "Structure headings in order (h1, then h2, etc.).\n" ++
  "\n" ++
  "Use lists (<ul>, <ol>) instead of manually formatted bullets.\n" ++
  "\n" ++
  "No JavaScript is required unless it’s absolutely necessary for layout; prefer pure HTML + CSS.\n" ++
  "\n" ++
  "Output format\n" ++
  "\n" ++
  "Return only the finished HTML document.\n" ++
  "\n" ++
  "Do not wrap it in code fences.\n" ++
  "\n" ++
  "Do not add any explanation or commentary.\n" ++
  "\n" ++
  "User request to base the HTML on: "

def robotText : String :=
  "\n" ++
  "      [Robot AI Assistant]\n" ++
  "        _____\n" ++
  "       | . . |\n" ++
  "       |  ^  |\n" ++
  "       | \x27-\x27 |\n" ++
  "       +-----+\n" ++
  "      /|     |\\\n" ++
  "     /_|_____|_\\\n" ++
  "       /  |  \\\n" ++
  "      (   |   )\n" ++
  "       \\_/ \\_/\n" ++
  " you can find MY recomendations in the following link: "

def missingQ1 : String := "Your task is to gather the full list of sites using the available MCP tool and compare it against the configuration provided in the user message."

def missingQ2 : String := " Fetch all sites using the tool with a page size of 100."

def missingQ3 : String := " After retrieving the remote sites, compare them to the sites defined in the provided configuration. "

def missingQ4 : String := " Produce a JSON array containing only the differences between the two sets. "

def missingQ5 : String := " Your output must contain only the following two sections, with no additional words, explanations, or text:\n"

def missingQ6 : String := " add these resources to your configuration:\nresource \"incapsula_site_v3\" \"<site_name>\" \x7b\x7b name = \"<site_name>\" \x7d\x7d"

def missingQ7 : String := " run this import commands \nterraform import incapsula_site_v3.<site_name> <resource_id>"

def missingQ8 : String := " Output only these blocks with no additional words, explanations, or text."

def missingQ9 : String := " Only include sites that exist in one source but not the other."

def missingQ10 : String := " If a tool call is required to obtain the data, call it."

def missingQ11 : String := " this is the provided configuration: "


/-- `getNewFeatures` (provider.go 550-552). -/
def getNewFeatures : String := "site level managed certificate"

/-- Go `fmt.Sprintf("%v", r)` for one `TfResource` struct value. -/
def goFormatTfResource (r : TfResource) : String :=
  "\x7b" ++ r.type ++ " " ++ r.id ++ "\x7d"

/-- Go `fmt.Sprintf("%v", resources)` for the `[]TfResource` slice:
space-separated struct values inside brackets. -/
def goFormatTfResources (rs : List TfResource) : String :=
  "[" ++ String.intercalate " " (rs.map goFormatTfResource) ++ "]"

/-- The question built by `getMissingResources` (provider.go 765-775): the
eleven concatenated literals followed by the `%v`-serialized local
inventory. -/
def missingResourcesQuestion (resources : List TfResource) : String :=
  missingQ1 ++ missingQ2 ++ missingQ3 ++ missingQ4 ++ missingQ5 ++ missingQ6 ++
    missingQ7 ++ missingQ8 ++ missingQ9 ++ missingQ10 ++ missingQ11 ++
    goFormatTfResources resources

/-- The question built by `getGeneralTFBestPractices` (provider.go 630-712):
`fmt.Sprintf(template, resources)` with one trailing `%s`. -/
def generalTFBestPracticesQuestion (resources : String) : String :=
  generalTFBestPracticesText ++ resources

/-- The question built by `getImpervaResourceReplaceSuggestions`
(provider.go 555-624): `fmt.Sprintf(template, resources)` with one trailing
`%s`; the function's `docs` parameter is unused by the template. -/
def impervaReplaceQuestion (resources : String) : String :=
  impervaReplaceText ++ resources

/-- The question built by `getImpervaNewFeaturesSuggestions`
(provider.go 428-544): `fmt.Sprintf(template, docs, newFeatures, resources)`
with three `%s` verbs in that order. -/
def newFeaturesQuestion (docs newFeatures resources : String) : String :=
  newFeaturesText1 ++ docs ++ newFeaturesText2 ++ newFeatures ++
    newFeaturesText3 ++ resources ++ newFeaturesText4

/-- The question built by `getHtmlContent` (provider.go 316-420):
`fmt.Sprintf(template, finalAnswer)` with one trailing `%s`. -/
def htmlQuestion (finalAnswer : String) : String :=
  htmlText ++ finalAnswer

/-! ## Advisory tasks (provider.go) -/

/-- Embeds `getMissingResources` (provider.go 757-795): one tool-augmented
call carrying the api credentials; the error is discarded. -/
def getMissingResources (agent : AgentEnv) (d : ProviderData)
    (resources : List TfResource) : String :=
  (agent.answerWithTools (missingResourcesQuestion resources) d.apiId d.apiKey).fst

/-- Embeds `getGeneralTFBestPractices` (provider.go 629-716). -/
def getGeneralTFBestPractices (agent : AgentEnv) (resources : String) : String :=
  (agent.queryAgent (generalTFBestPracticesQuestion resources)).fst

/-- Embeds `getImpervaResourceReplaceSuggestions` (provider.go 554-627); as
in the source, `d` and `docs` do not influence the result. -/
def getImpervaResourceReplaceSuggestions (agent : AgentEnv) (_d : ProviderData)
    (resources : String) (_docs : String) : String :=
  (agent.queryAgent (impervaReplaceQuestion resources)).fst

/-- Embeds `getImpervaNewFeaturesSuggestions` (provider.go 426-548). -/
def getImpervaNewFeaturesSuggestions (agent : AgentEnv) (_d : ProviderData)
    (resources : String) (docs : String) : String :=
  (agent.queryAgent (newFeaturesQuestion docs getNewFeatures resources)).fst

/-! ## Orchestration (provider.go 236-243 and 283-314) -/

/-- Embeds `runDiagnostics` (provider.go 236-243): the sequential dispatch.
Each invoked task's text is appended after a `"\n"`; the
`getImpervaResourceReplaceSuggestions` line is commented out in the source
and therefore absent here. -/
def runDiagnostics (agent : AgentEnv) (d : ProviderData)
    (resources : List TfResource) (docs : String)
    (allResourcesFromFiles : String) : String :=
  let answer := ""
  let answer := answer ++ "\n" ++ getMissingResources agent d resources
  let answer := answer ++ "\n" ++ getGeneralTFBestPractices agent allResourcesFromFiles
  let answer := answer ++ "\n" ++ getImpervaNewFeaturesSuggestions agent d allResourcesFromFiles docs
  answer

/-- The four goroutine bodies of `runDiagnosticsParallel`, indexed in
declaration order: 0 missing-resources diff, 1 general best practices,
2 replace suggestions, 3 new features. -/
def diagTask (agent : AgentEnv) (d : ProviderData) (resources : List TfResource)
    (docs : String) (allResourcesFromFiles : String) : Fin 4 → String :=
  fun i =>
    match i with
    | ⟨0, _⟩ => getMissingResources agent d resources
    | ⟨1, _⟩ => getGeneralTFBestPractices agent allResourcesFromFiles
    | ⟨2, _⟩ => getImpervaResourceReplaceSuggestions agent d allResourcesFromFiles docs
    | ⟨3, _⟩ => getImpervaNewFeaturesSuggestions agent d allResourcesFromFiles docs
    | ⟨n + 4, h⟩ => absurd h (by omega)

/-- Embeds `runDiagnosticsParallel` (provider.go 283-314): the four
goroutines each send their task's result into one shared buffered channel;
after the `WaitGroup` join the channel is drained into `answers` in the order
the sends happened — the goroutine completion order, a scheduling outcome
modelled as the `order` parameter — and the answers are joined with
`"\n"` (`strings.Join`). -/
def runDiagnosticsParallel (agent : AgentEnv) (d : ProviderData)
    (resources : List TfResource) (docs : String)
    (allResourcesFromFiles : String) (order : List (Fin 4)) : String :=
  String.intercalate "\n" (order.map (diagTask agent d resources docs allResourcesFromFiles))

/-! ## Claims C1 and C2: dispatch and aggregation -/

/-- An agent whose plain answer is always `"Q"` and whose tool-augmented
answer is always `"T"`, with no errors. -/
def agentConst : AgentEnv where
  queryAgent := fun _ => ("Q", none)
  answerWithTools := fun _ _ _ => ("T", none)

/-- Sample provider configuration for concrete instances. -/
def dSample : ProviderData where
  apiId := "api-id"
  apiKey := "api-key"
  executionDir := "work"

/-- Claim C1 counterexample: with one fixed set of task result texts
(tool-augmented diff answer `"T"`, every plain advisory answer `"Q"`), the
concurrent aggregation depends on the goroutine completion order — two
completion orders give two different reports — and the sequential report
differs from the concurrent report even under the canonical completion
order (the sequential path prefixes every contribution with a newline and
does not invoke the replace-suggestions task). -/
theorem c1_counterexample :
    runDiagnosticsParallel agentConst dSample [] "D" "F" [0, 1, 2, 3]
      ≠ runDiagnosticsParallel agentConst dSample [] "D" "F" [1, 0, 2, 3]
    ∧ runDiagnostics agentConst dSample [] "D" "F"
      ≠ runDiagnosticsParallel agentConst dSample [] "D" "F" [0, 1, 2, 3] := by
  constructor <;> decide

/-- Claim C1 amended: for a fixed set of task result texts, the concurrent
fan-out joins the four task texts with `"\n"` in goroutine completion order;
the multiset of contributions is canonical — the completion order being a
permutation of the declaration order `[0, 1, 2, 3]`, the aggregated list of
contributions is a permutation of the canonical contribution list, so no
contribution is lost or duplicated — but the aggregation is not reordered to
the canonical task-declaration order, and the sequential path instead
produces the diff, best-practices and new-features texts (only), each
preceded by a newline. -/
theorem c1_amended (agent : AgentEnv) (d : ProviderData)
    (resources : List TfResource) (docs allResourcesFromFiles : String)
    (order : List (Fin 4)) (hperm : order.Perm [0, 1, 2, 3]) :
    runDiagnosticsParallel agent d resources docs allResourcesFromFiles order
      = String.intercalate "\n"
          (order.map (diagTask agent d resources docs allResourcesFromFiles))
    ∧ (order.map (diagTask agent d resources docs allResourcesFromFiles)).Perm
        [getMissingResources agent d resources,
         getGeneralTFBestPractices agent allResourcesFromFiles,
         getImpervaResourceReplaceSuggestions agent d allResourcesFromFiles docs,
         getImpervaNewFeaturesSuggestions agent d allResourcesFromFiles docs]
    ∧ runDiagnostics agent d resources docs allResourcesFromFiles
      = "\n" ++ getMissingResources agent d resources
        ++ "\n" ++ getGeneralTFBestPractices agent allResourcesFromFiles
        ++ "\n" ++ getImpervaNewFeaturesSuggestions agent d allResourcesFromFiles docs := by
  refine ⟨rfl, ?_, rfl⟩
  exact hperm.map (diagTask agent d resources docs allResourcesFromFiles)

/-- Witness for C1 (amended) at a concrete completion order `[2, 0, 3, 1]`. -/
theorem c1_amended_witness :
    runDiagnosticsParallel agentConst dSample [] "D" "F" [2, 0, 3, 1]
      = String.intercalate "\n"
          ([2, 0, 3, 1].map (diagTask agentConst dSample [] "D" "F"))
    ∧ ([2, 0, 3, 1].map (diagTask agentConst dSample [] "D" "F")).Perm
        [getMissingResources agentConst dSample [],
         getGeneralTFBestPractices agentConst "F",
         getImpervaResourceReplaceSuggestions agentConst dSample "F" "D",
         getImpervaNewFeaturesSuggestions agentConst dSample "F" "D"]
    ∧ runDiagnostics agentConst dSample [] "D" "F"
      = "\n" ++ getMissingResources agentConst dSample []
        ++ "\n" ++ getGeneralTFBestPractices agentConst "F"
        ++ "\n" ++ getImpervaNewFeaturesSuggestions agentConst dSample "F" "D" :=
  c1_amended agentConst dSample [] "D" "F" [2, 0, 3, 1] (by decide)

/-- The line-feed character. -/
def lfChar : Char := Char.ofNat 10

/-- An agent that answers `"C"` to a plain prompt beginning with a line feed
and `"Q"` to every other plain prompt; among the three plain-prompt tasks,
only the replace-suggestions template begins with a line feed, so this agent
answers the replace-suggestions question with `"C"` and the other advisory
questions with `"Q"`.  Tool-augmented answers are `"T"`. -/
def agentMark : AgentEnv where
  queryAgent := fun p => if p.data.head? = some lfChar then ("C", none) else ("Q", none)
  answerWithTools := fun _ _ _ => ("T", none)

/-- Claim C2 counterexample: under `agentMark` the four tasks answer
`"T"`, `"Q"`, `"C"`, `"Q"` respectively, yet the aggregated report of the
dispatch step (`runDiagnostics`, the path invoked by `getLLMSuggestions`)
does not contain the replace-suggestions contribution `"C"` at all: only
three of the four tasks are invoked. -/
theorem c2_counterexample :
    getMissingResources agentMark dSample [] = "T"
    ∧ getGeneralTFBestPractices agentMark "F" = "Q"
    ∧ getImpervaResourceReplaceSuggestions agentMark dSample "F" "D" = "C"
    ∧ getImpervaNewFeaturesSuggestions agentMark dSample "F" "D" = "Q"
    ∧ ¬ List.IsInfix "C".data (runDiagnostics agentMark dSample [] "D" "F").data := by
  refine ⟨rfl, ?_, ?_, ?_, ?_⟩ <;> decide

/-- Claim C2 amended: the dispatch step of the advisory cycle
(`runDiagnostics`) invokes three of the four canonical tasks — the
inventory diff, general best practices, and new-feature adoption; the
deprecated-resource-replacement invocation is commented out — and the
aggregated report is exactly those three contributions, each preceded by the
`"\n"` separator: it is determined by those three answers alone, so two
agents agreeing on them produce the same report regardless of how they
answer the replace-suggestions question. -/
theorem c2_amended (e₁ e₂ : AgentEnv) (d : ProviderData)
    (resources : List TfResource) (docs files : String)
    (hmiss : getMissingResources e₁ d resources = getMissingResources e₂ d resources)
    (hbp : getGeneralTFBestPractices e₁ files = getGeneralTFBestPractices e₂ files)
    (hnf : getImpervaNewFeaturesSuggestions e₁ d files docs
      = getImpervaNewFeaturesSuggestions e₂ d files docs) :
    runDiagnostics e₁ d resources docs files = runDiagnostics e₂ d resources docs files
    ∧ runDiagnostics e₁ d resources docs files
      = "\n" ++ getMissingResources e₁ d resources
        ++ "\n" ++ getGeneralTFBestPractices e₁ files
        ++ "\n" ++ getImpervaNewFeaturesSuggestions e₁ d files docs := by
  refine ⟨?_, rfl⟩
  show "" ++ "\n" ++ _ ++ "\n" ++ _ ++ "\n" ++ _ = "" ++ "\n" ++ _ ++ "\n" ++ _ ++ "\n" ++ _
  rw [hmiss, hbp, hnf]

/-- Witness for C2 (amended): `agentConst` and `agentMark` agree on the
three invoked tasks' answers but differ on the replace-suggestions answer
(`"Q"` vs `"C"`); the reports coincide. -/
theorem c2_amended_witness :
    runDiagnostics agentConst dSample [] "D" "F" = runDiagnostics agentMark dSample [] "D" "F"
    ∧ runDiagnostics agentConst dSample [] "D" "F"
      = "\n" ++ getMissingResources agentConst dSample []
        ++ "\n" ++ getGeneralTFBestPractices agentConst "F"
        ++ "\n" ++ getImpervaNewFeaturesSuggestions agentConst dSample "F" "D" :=
  c2_amended agentConst agentMark dSample [] "D" "F" (by decide) (by decide) (by decide)

/-! ## Claim C7: the inventory-diff prompt -/

/-- `s` occurs (as a contiguous substring) in `t`. -/
def strOccursIn (s t : String) : Prop := ∃ a b : String, a ++ s ++ b = t

/-- Claim C7: for every local inventory, the prompt built by
`getMissingResources` contains (1) the pagination-exhaustion instruction
"Fetch all sites using the tool with a page size of 100." (`missingQ2`),
(2) the local inventory inline, serialized as `%v`-formatted `{type id}`
pairs (`goFormatTfResources`), (3) the instruction that the output contain
only the two sections with no additional words (`missingQ5`), the
declaration-snippet block shape (`missingQ6`) and the import-command block
shape (`missingQ7`), and (4) the instruction to include only sites existing
in one source but not the other — hence no blocks for resources present in
both sets (`missingQ9`). -/
theorem c7_diff_prompt (resources : List TfResource) :
    strOccursIn missingQ2 (missingResourcesQuestion resources)
    ∧ strOccursIn (goFormatTfResources resources) (missingResourcesQuestion resources)
    ∧ strOccursIn missingQ5 (missingResourcesQuestion resources)
    ∧ strOccursIn missingQ6 (missingResourcesQuestion resources)
    ∧ strOccursIn missingQ7 (missingResourcesQuestion resources)
    ∧ strOccursIn missingQ9 (missingResourcesQuestion resources) := by
  refine ⟨⟨missingQ1, missingQ3 ++ missingQ4 ++ missingQ5 ++ missingQ6 ++ missingQ7 ++
      missingQ8 ++ missingQ9 ++ missingQ10 ++ missingQ11 ++ goFormatTfResources resources, ?_⟩,
    ⟨missingQ1 ++ missingQ2 ++ missingQ3 ++ missingQ4 ++ missingQ5 ++ missingQ6 ++
      missingQ7 ++ missingQ8 ++ missingQ9 ++ missingQ10 ++ missingQ11, "", ?_⟩,
    ⟨missingQ1 ++ missingQ2 ++ missingQ3 ++ missingQ4, missingQ6 ++ missingQ7 ++
      missingQ8 ++ missingQ9 ++ missingQ10 ++ missingQ11 ++ goFormatTfResources resources, ?_⟩,
    ⟨missingQ1 ++ missingQ2 ++ missingQ3 ++ missingQ4 ++ missingQ5, missingQ7 ++
      missingQ8 ++ missingQ9 ++ missingQ10 ++ missingQ11 ++ goFormatTfResources resources, ?_⟩,
    ⟨missingQ1 ++ missingQ2 ++ missingQ3 ++ missingQ4 ++ missingQ5 ++ missingQ6, missingQ8 ++
      missingQ9 ++ missingQ10 ++ missingQ11 ++ goFormatTfResources resources, ?_⟩,
    ⟨missingQ1 ++ missingQ2 ++ missingQ3 ++ missingQ4 ++ missingQ5 ++ missingQ6 ++ missingQ7 ++
      missingQ8, missingQ10 ++ missingQ11 ++ goFormatTfResources resources, ?_⟩⟩ <;>
    simp only [missingResourcesQuestion, strAppendAssoc, String.append_empty]

/-! ## The advisory cycle: getLLMSuggestions (provider.go 200-223) -/

/-- All external facts `getLLMSuggestions` depends on: the `os.Getwd`
result, the state-file read outcome at a path, the `.tf` file system, the
reasoning agent, and the `(text, err)` result of
`readAndConcatWebsiteFiles("website")` (whose error the caller discards). -/
structure Env where
  getwd : Except Unit String
  stateRead : String → StateRead
  fs : FileSys
  agent : AgentEnv
  websiteDocs : String × Option Unit

/-- Embeds `getLLMSuggestions`.  `os.Getwd` failure hits `log.Fatalf`,
which terminates the process before anything is dispatched (`none`).
Otherwise: the state file `dir + "terraform.tfstate"` is read
(`getAllResourcesFromState` is also called on it, but only feeds
`log.Printf`, so it does not appear in the returned value), the `.tf` files
are concatenated (error discarded), the website docs are read (error
discarded), and the sequential `runDiagnostics` answer is wrapped by
`createResponse`.  The `runDiagnosticsParallel` / `createHtmlReport` calls
are commented out in the source. -/
def getLLMSuggestions (env : Env) (d : ProviderData) : Option (List Diagnostic) :=
  match env.getwd with
  | .error _ => none
  | .ok _ =>
    let dir := d.executionDir
    let resources := getAllResourcesTypeAndId (env.stateRead (stateFilePath dir))
    let allResourcesFromFiles := (getAllResourcesFromTfFiles env.fs dir).fst
    let docs := env.websiteDocs.fst
    let rowAnswer := runDiagnostics env.agent d resources docs allResourcesFromFiles
    some (createResponse d rowAnswer)

/-- Two agents with the same answer texts (their error components may
differ arbitrarily). -/
def sameAnswerTexts (a b : AgentEnv) : Prop :=
  (∀ p, (a.queryAgent p).fst = (b.queryAgent p).fst)
  ∧ ∀ p x y, (a.answerWithTools p x y).fst = (b.answerWithTools p x y).fst

theorem runDiagnosticsCongr (a b : AgentEnv) (h : sameAnswerTexts a b)
    (d : ProviderData) (resources : List TfResource) (docs files : String) :
    runDiagnostics a d resources docs files = runDiagnostics b d resources docs files := by
  show "" ++ "\n" ++ _ ++ "\n" ++ _ ++ "\n" ++ _ = "" ++ "\n" ++ _ ++ "\n" ++ _ ++ "\n" ++ _
  rw [getMissingResources, getMissingResources, h.2,
    getGeneralTFBestPractices, getGeneralTFBestPractices, h.1,
    getImpervaNewFeaturesSuggestions, getImpervaNewFeaturesSuggestions, h.1]

/-- Claim C5: no individual task failure is fatal to the advisory cycle or
alters sibling tasks' contributions: when the working directory resolves,
the cycle always returns one warning payload whose detail carries every
dispatched task's text (a failed task contributes its possibly-empty text),
and the outcome depends only on the tasks' answer texts, never on their
error components.  The only fatal condition is the failure of `os.Getwd`,
which aborts the cycle (`log.Fatalf`) before any task is dispatched. -/
theorem c5_failure_tolerance (e₁ e₂ : Env) (d : ProviderData) :
    (e₁.getwd = .error () → getLLMSuggestions e₁ d = none)
    ∧ (∀ cwd, e₁.getwd = .ok cwd →
        getLLMSuggestions e₁ d = some [Diagnostic.mk .warning
          "Best Practice Suggestion"
          ("\n" ++ getMissingResources e₁.agent d
              (getAllResourcesTypeAndId (e₁.stateRead (stateFilePath d.executionDir)))
            ++ "\n" ++ getGeneralTFBestPractices e₁.agent
              (getAllResourcesFromTfFiles e₁.fs d.executionDir).fst
            ++ "\n" ++ getImpervaNewFeaturesSuggestions e₁.agent d
              (getAllResourcesFromTfFiles e₁.fs d.executionDir).fst
              e₁.websiteDocs.fst)])
    ∧ (e₁.getwd = e₂.getwd → e₁.stateRead = e₂.stateRead → e₁.fs = e₂.fs →
        e₁.websiteDocs.fst = e₂.websiteDocs.fst →
        sameAnswerTexts e₁.agent e₂.agent →
        getLLMSuggestions e₁ d = getLLMSuggestions e₂ d) := by
  refine ⟨?_, ?_, ?_⟩
  · intro h
    simp only [getLLMSuggestions, h]
  · intro cwd h
    simp only [getLLMSuggestions, h]
    rfl
  · intro hg hs hf hd hagent
    simp only [getLLMSuggestions, hg, hs, hf, hd,
      runDiagnosticsCongr e₁.agent e₂.agent hagent]

/-- An agent with the same answer texts as `agentConst` but in which every
call also reports an error (every task "fails"). -/
def agentFailing : AgentEnv where
  queryAgent := fun _ => ("Q", some ())
  answerWithTools := fun _ _ _ => ("T", some ())

/-- Environment in which `os.Getwd` fails. -/
def envAbort : Env where
  getwd := .error ()
  stateRead := fun _ => .openError
  fs := fsBad
  agent := agentConst
  websiteDocs := ("", none)

/-- Environment in which every task call reports an error (and the website
read fails too). -/
def envOkFail : Env where
  getwd := .ok "/cwd"
  stateRead := fun _ => .openError
  fs := fsBad
  agent := agentFailing
  websiteDocs := ("", some ())

/-- Environment identical to `envOkFail` except that no call errs. -/
def envOkGood : Env where
  getwd := .ok "/cwd"
  stateRead := fun _ => .openError
  fs := fsBad
  agent := agentConst
  websiteDocs := ("", none)

/-- Witness for C5 at concrete environments: a `Getwd` failure aborts with
no payload; an environment in which every task call errs produces the very
same payload as one in which none errs; and that payload carries all three
dispatched tasks' texts. -/
theorem c5_failure_tolerance_witness :
    getLLMSuggestions envAbort dSample = none
    ∧ getLLMSuggestions envOkFail dSample = getLLMSuggestions envOkGood dSample
    ∧ getLLMSuggestions envOkGood dSample
      = some [Diagnostic.mk .warning "Best Practice Suggestion" "\nT\nQ\nQ"] :=
  ⟨(c5_failure_tolerance envAbort envAbort dSample).1 rfl,
   (c5_failure_tolerance envOkFail envOkGood dSample).2.2 rfl rfl rfl rfl
     ⟨fun _ => rfl, fun _ _ _ => rfl⟩,
   ((c5_failure_tolerance envOkGood envOkGood dSample).2.1 "/cwd" rfl).trans (by decide)⟩

/-! ## Rendered-document path (provider.go 245-281, 316-424, 718-732) -/

def lbraceChar : Char := Char.ofNat 123

def rbraceChar : Char := Char.ofNat 125

/-- Go `strings.ReplaceAll(s, string(c), r)` for a one-character pattern:
every occurrence of `c` is replaced by `r`. -/
def replaceAllChar (s : String) (c : Char) (r : String) : String :=
  ⟨s.data.flatMap (fun a => if a = c then r.data else [a])⟩

/-- Embeds `escapeBraces` (provider.go 260-264): `{` becomes `{{`, then `}`
becomes `}}`. -/
def escapeBraces (answer : String) : String :=
  let answer := replaceAllChar answer lbraceChar "\x7b\x7b"
  let answer := replaceAllChar answer rbraceChar "\x7d\x7d"
  answer

/-- Embeds `getAiAnswer` (provider.go 718-732): the decorative robot wrapper
around the link text. -/
def getAiAnswer (answer : String) : String :=
  robotText ++ answer

/-- Embeds `getHtmlContent` (provider.go 316-424): one plain agent call on
the HTML-rendering question, error discarded (on failure the partial or
empty text is used). -/
def getHtmlContent (agent : AgentEnv) (_d : ProviderData) (finalAnswer : String) : String :=
  (agent.queryAgent (htmlQuestion finalAnswer)).fst

/-- Embeds `saveHtmlToFile` (provider.go 266-281).  `write path content`
is the success of `ioutil.WriteFile`; an empty `execution_dir` falls back to
`os.Getwd` (error discarded).  On write failure the function returns the
sentinel text `"Failed to save HTML file"` instead of a `file://` link. -/
def saveHtmlToFile (write : String → String → Bool) (cwd : String)
    (d : ProviderData) (content : String) : String :=
  let executionDir := d.executionDir
  let executionDir := if executionDir = "" then cwd else executionDir
  let filePath := goJoin executionDir "llm_suggestion.html"
  if write filePath content then "file://" ++ filePath
  else "Failed to save HTML file"

/-- Embeds `createHtmlReport` (provider.go 245-258): escape braces, render
to HTML through the agent, save, and wrap whatever `saveHtmlToFile` returned
in the robot banner as the diagnostic detail. -/
def createHtmlReport (agent : AgentEnv) (write : String → String → Bool)
    (cwd : String) (d : ProviderData) (finalAnswer : String) : List Diagnostic :=
  let answer := escapeBraces finalAnswer
  let htmlFile := getHtmlContent agent d answer
  let link := saveHtmlToFile write cwd d htmlFile
  let answerWithImage := getAiAnswer link
  [{ severity := .warning, summary := "Best Practice Suggestion", detail := answerWithImage }]

/-- A file writer that always fails. -/
def writeFail : String → String → Bool := fun _ _ => false

/-- Claim C8 counterexample: when saving the styled document fails, the
diagnostic payload does not contain the raw aggregated text: for the
aggregated report `"RAWTEXT"`, the delivered detail is the robot banner
around the sentinel `"Failed to save HTML file"`, and `"RAWTEXT"` does not
occur in it. -/
theorem c8_counterexample :
    createHtmlReport agentConst writeFail "/cwd" dSample "RAWTEXT"
      = [Diagnostic.mk .warning "Best Practice Suggestion"
          (getAiAnswer "Failed to save HTML file")]
    ∧ ¬ List.IsInfix "RAWTEXT".data (getAiAnswer "Failed to save HTML file").data := by
  constructor <;> decide

/-- Claim C8 amended: on the rendered-document path a file-save failure does
not fall back to the raw aggregated text: whenever writing the styled
document fails, the diagnostic payload delivered to the operator is the
decorative wrapper around the literal `"Failed to save HTML file"`,
independent of the aggregated report text. -/
theorem c8_amended (agent : AgentEnv) (write : String → String → Bool)
    (cwd : String) (d : ProviderData) (finalAnswer : String)
    (hfail : write
        (goJoin (if d.executionDir = "" then cwd else d.executionDir) "llm_suggestion.html")
        (getHtmlContent agent d (escapeBraces finalAnswer)) = false) :
    createHtmlReport agent write cwd d finalAnswer
      = [Diagnostic.mk .warning "Best Practice Suggestion"
          (getAiAnswer "Failed to save HTML file")] := by
  simp only [createHtmlReport, saveHtmlToFile, hfail, Bool.false_eq_true, if_false]

/-- Witness for C8 (amended) at a concrete failing writer and report text. -/
theorem c8_amended_witness :
    createHtmlReport agentConst writeFail "/cwd" dSample "THE RAW REPORT"
      = [Diagnostic.mk .warning "Best Practice Suggestion"
          (getAiAnswer "Failed to save HTML file")] :=
  c8_amended agentConst writeFail "/cwd" dSample "THE RAW REPORT" rfl
